import Mathlib

/-!
Verification development for the ha-redis load generators.

The repository contains three near-duplicate Python load generators:
`src/cluster/s/load-generator.py`, `src/sentinel/s/load-generator.py` and
`src/dragonfly/s/load-generator.py`.  This file gives a shallow embedding of
the operation-dispatch, statistics, connection-retry and key-generation logic
of each variant and proves properties about them.

Modelling conventions:
* Python's `random.randint(a, b)` (uniform inclusive draw) is modelled as a
  seed-indexed function whose range is exactly `[a, b]`.
* Python's `random.choice(seq)` is modelled by a uniform index into the list.
* Wall-clock times (`time.time()`) are integer second counts supplied as
  inputs; the derived rates in reports remain exact rationals.
* A store operation either succeeds or raises an error of the caught
  redis-error classes; `Outcome.storeErr rok` records whether the
  `reconnect()` triggered by the handler (cluster/sentinel only) succeeds
  (`rok = true`) or exhausts its retries and re-raises (`rok = false`).
* A raised exception is `none`; a normal return value `v` is `some v`.
-/

namespace HaRedis

/-- Model of Python `random.randint a b`: a seed-indexed uniform draw whose
range is exactly the closed interval `[a, b]`. -/
def randint (a b seed : Nat) : Nat := a + seed % (b + 1 - a)

/-- Model of `generate_random_key` (identical in all three variants):
`f"key:{random.randint(1, 1000)}"`. -/
def generate_random_key (s : Nat) : String := "key:" ++ toString (randint 1 1000 s)

/-- Counter key `f"counter:{random.randint(1, 100)}"` used by the `incr` write. -/
def counter_key (s : Nat) : String := "counter:" ++ toString (randint 1 100 s)

/-- List key `f"list:{random.randint(1, 50)}"`. -/
def list_key (s : Nat) : String := "list:" ++ toString (randint 1 50 s)

/-- Set key `f"set:{random.randint(1, 50)}"`. -/
def set_key (s : Nat) : String := "set:" ++ toString (randint 1 50 s)

/-- Hash key `f"hash:{random.randint(1, 50)}"`. -/
def hash_key (s : Nat) : String := "hash:" ++ toString (randint 1 50 s)

/-- Model of Python `random.choice l`: the element at a uniform index. -/
def random_choice (l : List String) (i : Nat) : String := l.getD (i % l.length) ""

/-- The read-operation subtype list, `['get', 'exists', 'lrange', 'smembers', 'hgetall']`
in all three variants. -/
def read_ops : List String := ["get", "exists", "lrange", "smembers", "hgetall"]

/-- The write-operation subtype list, `['set', 'incr', 'lpush', 'sadd', 'hset']`
in all three variants. -/
def write_ops : List String := ["set", "incr", "lpush", "sadd", "hset"]

/-- Kind of a dispatched operation. -/
inductive OpKind
  | read
  | write
deriving DecidableEq, Repr

/-- The read/write decision of every variant:
`if random.randint(1, 100) <= READ_WRITE_RATIO: read else write`
(`draw` is the value returned by `randint 1 100`, `pct` the configured
percentage of reads). -/
def select_kind (draw pct : Nat) : OpKind :=
  if draw ≤ pct then OpKind.read else OpKind.write

/-- Outcome of the store command(s) of one tick.  `storeErr rok` is an error
of the caught redis-error classes; `rok` records whether the `reconnect()`
the cluster/sentinel handler then performs succeeds (the dragonfly variant
ignores it, having no reconnect). -/
inductive Outcome
  | ok
  | storeErr (rok : Bool)
deriving DecidableEq, Repr

/-- One event seen by the main loop: a dispatched tick (with the read/write
draw, the store outcome and the wall-clock time at the report check), an
unexpected non-store error caught by the outer `except Exception` before any
counter update, or a `KeyboardInterrupt` delivered between ticks. -/
inductive Event
  | tick (draw : Nat) (o : Outcome) (now : ℤ)
  | unexpected
  | interrupt (now : ℤ)
deriving DecidableEq, Repr

/-- Model of the bounded-retry connection loop
`for attempt in range(max_retries): try: ...; return except: if last: raise else sleep(delay)`.
The list is the remaining 0-based attempt indices, `ok a` tells whether
attempt `a` succeeds.  Returns `some (attempts used, total seconds slept)`
on success (the successful 0-based attempt `a` is preceded by `a` sleeps of
`delay` seconds), `none` when every attempt fails and the last error is
re-raised. -/
def connectLoop (ok : Nat → Bool) (delay : Nat) : List Nat → Option (Nat × Nat)
  | [] => none
  | a :: rest => if ok a then some (a + 1, delay * a) else connectLoop ok delay rest

/-- Commands the write path issues against the store. -/
inductive StoreCmd
  | setex (key : String) (ttl : Nat) (value : String)
  | incr (key : String)
  | lpush (key value : String)
  | ltrim (key : String) (start stop : Nat)
  | sadd (key member : String)
  | hset (key field value : String)
deriving DecidableEq, Repr

/-- The key a store command addresses. -/
def cmd_key : StoreCmd → String
  | StoreCmd.setex k _ _ => k
  | StoreCmd.incr k => k
  | StoreCmd.lpush k _ => k
  | StoreCmd.ltrim k _ _ => k
  | StoreCmd.sadd k _ => k
  | StoreCmd.hset k _ _ => k

/-- Cluster variant `perform_write` command sequence (lines 113-126): one
branch per write subtype.  `ks cs2 ls ss hs` are the seeds of the key draws,
`v` the generated value, `f` the generated hash field. -/
def cluster_write_cmds (op : String) (ks cs2 ls ss hs : Nat) (v f : String) : List StoreCmd :=
  if op = "set" then [StoreCmd.setex (generate_random_key ks) 300 v]
  else if op = "incr" then [StoreCmd.incr (counter_key cs2)]
  else if op = "lpush" then [StoreCmd.lpush (list_key ls) v, StoreCmd.ltrim (list_key ls) 0 99]
  else if op = "sadd" then [StoreCmd.sadd (set_key ss) v]
  else if op = "hset" then [StoreCmd.hset (hash_key hs) f v]
  else []

/-- Sentinel variant `perform_write` command sequence (lines 121-133).  Note
the `lpush` branch: the source draws the `lpush` key and the `ltrim` key with
two independent `random.randint(1, 50)` calls (seeds `ls1` and `ls2`), unlike
the other two variants which reuse one `list_key` variable. -/
def sentinel_write_cmds (op : String) (ks cs2 ls1 ls2 ss hs : Nat) (v f : String) : List StoreCmd :=
  if op = "set" then [StoreCmd.setex (generate_random_key ks) 300 v]
  else if op = "incr" then [StoreCmd.incr (counter_key cs2)]
  else if op = "lpush" then [StoreCmd.lpush (list_key ls1) v, StoreCmd.ltrim (list_key ls2) 0 99]
  else if op = "sadd" then [StoreCmd.sadd (set_key ss) v]
  else if op = "hset" then [StoreCmd.hset (hash_key hs) f v]
  else []

/-- Dragonfly variant write command sequence (lines 163-177); the `set`
subtype uses `setex(key, 300, value)`, the `lpush` branch reuses one
`list_key` variable for push and trim. -/
def dragonfly_write_cmds (op : String) (ks cs2 ls ss hs : Nat) (v f : String) : List StoreCmd :=
  if op = "set" then [StoreCmd.setex (generate_random_key ks) 300 v]
  else if op = "incr" then [StoreCmd.incr (counter_key cs2)]
  else if op = "lpush" then [StoreCmd.lpush (list_key ls) v, StoreCmd.ltrim (list_key ls) 0 99]
  else if op = "sadd" then [StoreCmd.sadd (set_key ss) v]
  else if op = "hset" then [StoreCmd.hset (hash_key hs) f v]
  else []

/-- The key a read subtype addresses (identical in all variants):
`get`/`exists` read a primary key, `lrange` a list key, `smembers` a set key,
`hgetall` a hash key. -/
def read_key_for (op : String) (ks ls ss hs : Nat) : String :=
  if op = "get" then generate_random_key ks
  else if op = "exists" then generate_random_key ks
  else if op = "lrange" then list_key ls
  else if op = "smembers" then set_key ss
  else hash_key hs

/-- List-valued part of the store state: each key holds a list of values.
Non-list commands are identity on this projection. -/
def Store : Type := String → List String

/-- Point update of the store. -/
def store_set (st : Store) (k : String) (l : List String) : Store :=
  fun k2 => if k2 = k then l else st k2

/-- Redis `LTRIM key start stop` on the list value: keep the elements with
indices in `[start, stop]` (for the non-negative indices the code uses). -/
def redis_ltrim (l : List String) (start stop : Nat) : List String :=
  (l.drop start).take (stop + 1 - start)

/-- Effect of one store command on the list-valued store. -/
def apply_cmd (st : Store) : StoreCmd → Store
  | StoreCmd.lpush k v => store_set st k (v :: st k)
  | StoreCmd.ltrim k a b => store_set st k (redis_ltrim (st k) a b)
  | _ => st

/-- Effect of a command sequence. -/
def apply_cmds (st : Store) (l : List StoreCmd) : Store := l.foldl apply_cmd st

namespace CS

/-!
Model of the cluster and sentinel variants, whose dispatch, statistics,
reconnect and main-loop code is line-for-line identical
(`src/cluster/s/load-generator.py` and `src/sentinel/s/load-generator.py`;
they differ only in the store client and in the sentinel `lpush` key slip
modelled by `sentinel_write_cmds`).
-/

/-- The `self.stats` dictionary of the cluster/sentinel variants: exactly the
six entries of the source (there are no read/write error counters). -/
structure Stats where
  total_ops : Nat
  successful_ops : Nat
  failed_ops : Nat
  reads : Nat
  writes : Nat
  last_report : ℤ
deriving DecidableEq, Repr, Inhabited

/-- One emitted statistics log line (cluster/sentinel `report_stats`). -/
structure Report where
  total : Nat
  success : Nat
  failed : Nat
  reads : Nat
  writes : Nat
  ops_per_sec : ℚ
  success_rate : ℚ
deriving DecidableEq, Repr, Inhabited

/-- Calls the Connection Supervisor. -/
inductive SupAction
  | reconnectCall
deriving DecidableEq, Repr

/-- Cluster/sentinel `connect()`: up to 10 attempts, 5 seconds between
failed attempts. -/
def connect (ok : Nat → Bool) : Option (Nat × Nat) :=
  connectLoop ok 5 (List.range 10)

/-- Cluster/sentinel `reconnect()`: sleep a fixed 2 seconds, then re-run the
full `connect()` sequence.  Returns the sleep and the `connect` result. -/
def reconnect (ok : Nat → Bool) : ℚ × Option (Nat × Nat) :=
  (2, connect ok)

/-- Cluster/sentinel `perform_read` effect on the stats, with the supervisor
calls it makes and its return (`none` = the reconnect exhausted its retries
and the exception propagates out of `perform_read`).  On success `reads` and
`successful_ops` are incremented; on a caught store error only `failed_ops`
is incremented and `reconnect` is invoked; the failed operation is never
retried inside the call. -/
def perform_read (s : Stats) (o : Outcome) : Stats × List SupAction × Option Bool :=
  match o with
  | Outcome.ok =>
      ({ s with reads := s.reads + 1, successful_ops := s.successful_ops + 1 },
       [], some true)
  | Outcome.storeErr rok =>
      ({ s with failed_ops := s.failed_ops + 1 },
       [SupAction.reconnectCall], if rok then some false else none)

/-- Cluster/sentinel `perform_write` effect on the stats (mirror image of
`perform_read` with the `writes` counter). -/
def perform_write (s : Stats) (o : Outcome) : Stats × List SupAction × Option Bool :=
  match o with
  | Outcome.ok =>
      ({ s with writes := s.writes + 1, successful_ops := s.successful_ops + 1 },
       [], some true)
  | Outcome.storeErr rok =>
      ({ s with failed_ops := s.failed_ops + 1 },
       [SupAction.reconnectCall], if rok then some false else none)

/-- Cluster/sentinel `report_stats`: if at least 10 seconds elapsed since
`last_report`, emit a report and reset every counter with
`last_report = now`; otherwise do nothing. -/
def report_stats (s : Stats) (now : ℤ) : Stats × Option Report :=
  if 10 ≤ now - s.last_report then
    ({ total_ops := 0, successful_ops := 0, failed_ops := 0, reads := 0,
       writes := 0, last_report := now },
     some { total := s.total_ops, success := s.successful_ops,
            failed := s.failed_ops, reads := s.reads, writes := s.writes,
            ops_per_sec := if 0 < now - s.last_report
              then (s.total_ops : ℚ) / (now - s.last_report) else 0,
            success_rate := if 0 < s.total_ops
              then (s.successful_ops : ℚ) / (s.total_ops : ℚ) * 100 else 0 })
  else (s, none)

/-- One tick of the cluster/sentinel `run` loop body: dispatch the read or
write; when the dispatch returns normally, increment `total_ops` and run the
report check; when the reconnect inside the dispatch re-raised, the outer
`except Exception` catches it before the `total_ops` increment and before
the report check. -/
def tick_step (pct : Nat) (s : Stats) (draw : Nat) (o : Outcome) (now : ℤ) :
    Stats × List Report :=
  match (if select_kind draw pct = OpKind.read
         then perform_read s o else perform_write s o) with
  | (s1, _, none) => (s1, [])
  | (s1, _, some _) =>
      match report_stats { s1 with total_ops := s1.total_ops + 1 } now with
      | (s3, none) => (s3, [])
      | (s3, some r) => (s3, [r])

/-- Full state of a cluster/sentinel run: the stats, the reports emitted so
far, and the exit status once the loop has broken out. -/
structure RunState where
  stats : Stats
  reports : List Report
  exitCode : Option Nat
deriving DecidableEq, Repr, Inhabited

/-- Initial state: all counters zero, `last_report` the start time. -/
def initState (t0 : ℤ) : RunState :=
  ⟨⟨0, 0, 0, 0, 0, t0⟩, [], none⟩

/-- One main-loop event of the cluster/sentinel variants.  On
`KeyboardInterrupt` the loop logs and breaks — no final report is emitted —
and the process falls off `main` with exit status 0.  On an unexpected error
the loop logs, sleeps 1 second and continues. -/
def step (pct : Nat) (st : RunState) (e : Event) : RunState :=
  if st.exitCode.isSome then st
  else
    match e with
    | Event.interrupt _ => { st with exitCode := some 0 }
    | Event.unexpected => st
    | Event.tick draw o now =>
        let p := tick_step pct st.stats draw o now
        { st with stats := p.1, reports := st.reports ++ p.2 }

/-- The cluster/sentinel main loop over a list of events. -/
def run (pct : Nat) (st : RunState) : List Event → RunState
  | [] => st
  | e :: es => run pct (step pct st e) es

/-- Cluster/sentinel per-tick sleep interval:
`1.0 / OPERATIONS_PER_SECOND if OPERATIONS_PER_SECOND > 0 else 0.01`. -/
def sleep_time (ops : Int) : ℚ :=
  if 0 < ops then 1 / (ops : ℚ) else 1 / 100

end CS

namespace DF

/-!
Model of the dragonfly variant (`src/dragonfly/s/load-generator.py`), whose
main loop is module-level code: `reads`/`writes` are incremented before the
store command is attempted, per-type error counters exist, and no reconnect
is ever performed in steady state (a store error only bumps two counters and
the loop continues with the same clients).
-/

/-- The dragonfly `stats` dictionary: exactly the seven entries of the
source (lines 91-99). -/
structure Stats where
  total_operations : Nat
  successful_operations : Nat
  failed_operations : Nat
  reads : Nat
  writes : Nat
  read_errors : Nat
  write_errors : Nat
deriving DecidableEq, Repr, Inhabited

/-- One emitted statistics block (dragonfly `print_stats`). -/
structure Report where
  total : Nat
  success : Nat
  failed : Nat
  reads : Nat
  writes : Nat
  read_errors : Nat
  write_errors : Nat
  ops_per_sec : ℚ
  success_rate : ℚ
deriving DecidableEq, Repr, Inhabited

/-- Dragonfly `print_stats`: unconditionally emit a report computed from the
current stats and `last_report_time`, then reset every stats counter to 0
(the function itself does not touch `last_report_time`). -/
def print_stats (s : Stats) (last now : ℤ) : Stats × Report :=
  (⟨0, 0, 0, 0, 0, 0, 0⟩,
   { total := s.total_operations, success := s.successful_operations,
     failed := s.failed_operations, reads := s.reads, writes := s.writes,
     read_errors := s.read_errors, write_errors := s.write_errors,
     ops_per_sec := if 0 < now - last
       then (s.total_operations : ℚ) / (now - last) else 0,
     success_rate := if 0 < s.total_operations
       then (s.successful_operations : ℚ) / (s.total_operations : ℚ) * 100
       else 0 })

/-- Dragonfly read branch (lines 132-155): `reads` is incremented before the
command; success bumps `successful_operations`, a caught `RedisError` bumps
`failed_operations` and `read_errors` — and nothing else: no reconnect is
invoked. -/
def read_tick (s : Stats) (o : Outcome) : Stats :=
  let s1 := { s with reads := s.reads + 1 }
  match o with
  | Outcome.ok => { s1 with successful_operations := s1.successful_operations + 1 }
  | Outcome.storeErr _ =>
      { s1 with failed_operations := s1.failed_operations + 1,
                read_errors := s1.read_errors + 1 }

/-- Dragonfly write branch (lines 157-182), mirror image of `read_tick`. -/
def write_tick (s : Stats) (o : Outcome) : Stats :=
  let s1 := { s with writes := s.writes + 1 }
  match o with
  | Outcome.ok => { s1 with successful_operations := s1.successful_operations + 1 }
  | Outcome.storeErr _ =>
      { s1 with failed_operations := s1.failed_operations + 1,
                write_errors := s1.write_errors + 1 }

/-- Dragonfly report check (lines 187-189): when at least `report_interval`
(10) seconds elapsed since `last_report_time`, call `print_stats` and set
`last_report_time = now`; otherwise leave everything unchanged. -/
def report_check (s : Stats) (lrt now : ℤ) (rs : List Report) :
    Stats × ℤ × List Report :=
  if 10 ≤ now - lrt then
    let p := print_stats s lrt now
    (p.1, now, rs ++ [p.2])
  else (s, lrt, rs)

/-- Full state of a dragonfly run. -/
structure RunState where
  stats : Stats
  last_report_time : ℤ
  reports : List Report
  exitCode : Option Nat
deriving DecidableEq, Repr, Inhabited

/-- Initial state: all counters zero, `last_report_time` the start time. -/
def initState (t0 : ℤ) : RunState :=
  ⟨⟨0, 0, 0, 0, 0, 0, 0⟩, t0, [], none⟩

/-- One main-loop event of the dragonfly variant.  On `KeyboardInterrupt`
the loop calls `print_stats()` — a final flush — and breaks, falling off the
module with exit status 0. -/
def step (pct : Nat) (st : RunState) (e : Event) : RunState :=
  if st.exitCode.isSome then st
  else
    match e with
    | Event.interrupt now =>
        let p := print_stats st.stats st.last_report_time now
        { st with stats := p.1, reports := st.reports ++ [p.2],
                  exitCode := some 0 }
    | Event.unexpected => st
    | Event.tick draw o now =>
        let s1 := if draw ≤ pct then read_tick st.stats o else write_tick st.stats o
        let s2 := { s1 with total_operations := s1.total_operations + 1 }
        let t := report_check s2 st.last_report_time now st.reports
        { st with stats := t.1, last_report_time := t.2.1, reports := t.2.2 }

/-- The dragonfly main loop over a list of events. -/
def run (pct : Nat) (st : RunState) : List Event → RunState
  | [] => st
  | e :: es => run pct (step pct st e) es

/-- Dragonfly startup connection wait (lines 63-77): up to 30 attempts to
ping all three instances, 2 seconds between failed attempts. -/
def connect_wait (ok : Nat → Bool) : Option (Nat × Nat) :=
  connectLoop ok 2 (List.range 30)

/-- Dragonfly per-tick sleep interval (line 125):
`sleep_time = 1.0 / OPERATIONS_PER_SECOND`, with no guard — a configured
rate of 0 raises `ZeroDivisionError` (modelled as `none`), a negative rate
yields a negative interval. -/
def sleep_time (ops : Int) : Option ℚ :=
  if ops = 0 then none else some (1 / (ops : ℚ))

end DF

/-- An event whose reconnect (if any) succeeds: `false` exactly for a tick
whose store error triggered a reconnect that exhausted its retries. -/
def event_ok : Event → Bool
  | Event.tick _ (Outcome.storeErr false) _ => false
  | _ => true

/-- A key lies in one of the bounded pools of the spec: primary keys
`key:1..key:1000`, counters `counter:1..counter:100`, collections
`list:/set:/hash:` `1..50`. -/
def pool_ok (k : String) : Prop :=
  (∃ n, k = "key:" ++ toString n ∧ 1 ≤ n ∧ n ≤ 1000) ∨
  (∃ n, k = "counter:" ++ toString n ∧ 1 ≤ n ∧ n ≤ 100) ∨
  (∃ n, k = "list:" ++ toString n ∧ 1 ≤ n ∧ n ≤ 50) ∨
  (∃ n, k = "set:" ++ toString n ∧ 1 ≤ n ∧ n ≤ 50) ∨
  (∃ n, k = "hash:" ++ toString n ∧ 1 ≤ n ∧ n ≤ 50)

/-- Every key of a list lies in one of the bounded pools. -/
def keys_in_pools : List String → Prop
  | [] => True
  | k :: ks => pool_ok k ∧ keys_in_pools ks

/-- A concrete store whose list `list:1` already holds 100 elements. -/
def sentinel_store0 : Store :=
  fun k => if k = "list:1" then List.replicate 100 "x" else []

namespace CS

/-- Counter relations the cluster/sentinel stats maintain: `reads`/`writes`
count successful operations, `total_ops` counts completed ticks, and a tick
whose reconnect re-raised bumps `failed_ops` without bumping `total_ops`. -/
def stats_inv (s : Stats) : Prop :=
  s.reads + s.writes = s.successful_ops ∧
  s.successful_ops ≤ s.total_ops ∧
  s.total_ops ≤ s.successful_ops + s.failed_ops

/-- The same relations on an emitted report. -/
def good_report (r : Report) : Prop :=
  r.reads + r.writes = r.success ∧
  r.success ≤ r.total ∧
  r.total ≤ r.success + r.failed

/-- Run-state invariant: the live stats and every emitted report satisfy the
counter relations. -/
def invState (st : RunState) : Prop :=
  stats_inv st.stats ∧ ∀ r ∈ st.reports, good_report r

/-- Exact count balance, maintained as long as no reconnect exhausts its
retries. -/
def stats_eq (s : Stats) : Prop :=
  s.successful_ops + s.failed_ops = s.total_ops

/-- Run-state version of `stats_eq`, also for every emitted report. -/
def eqState (st : RunState) : Prop :=
  stats_eq st.stats ∧ ∀ r ∈ st.reports, r.success + r.failed = r.total

end CS

namespace DF

/-- The dragonfly stats maintain both spec invariants: `reads`/`writes`
classify every tick and success/failure classify its outcome. -/
def stats_inv (s : Stats) : Prop :=
  s.total_operations = s.reads + s.writes ∧
  s.successful_operations + s.failed_operations = s.total_operations

/-- The same invariants on an emitted report. -/
def good_report (r : Report) : Prop :=
  r.total = r.reads + r.writes ∧ r.success + r.failed = r.total

/-- Run-state invariant for the dragonfly loop. -/
def invState (st : RunState) : Prop :=
  stats_inv st.stats ∧ ∀ r ∈ st.reports, good_report r

end DF

/-!
Helper lemmas.
-/

/-- The modelled `randint a b` draw always lies in the closed range `[a, b]`. -/
theorem randint_bounds (a b s : Nat) (h : a ≤ b) :
    a ≤ randint a b s ∧ randint a b s ≤ b := by
  unfold randint
  have hlt : s % (b + 1 - a) < b + 1 - a := Nat.mod_lt _ (by omega)
  omega

/-- The primary-key builder stays in the `key:1..1000` pool. -/
theorem generate_random_key_pool (s : Nat) :
    ∃ n, generate_random_key s = "key:" ++ toString n ∧ 1 ≤ n ∧ n ≤ 1000 :=
  ⟨randint 1 1000 s, rfl, randint_bounds 1 1000 s (by omega)⟩

/-- The counter-key builder stays in the `counter:1..100` pool. -/
theorem counter_key_pool (s : Nat) :
    ∃ n, counter_key s = "counter:" ++ toString n ∧ 1 ≤ n ∧ n ≤ 100 :=
  ⟨randint 1 100 s, rfl, randint_bounds 1 100 s (by omega)⟩

/-- The list-key builder stays in the `list:1..50` pool. -/
theorem list_key_pool (s : Nat) :
    ∃ n, list_key s = "list:" ++ toString n ∧ 1 ≤ n ∧ n ≤ 50 :=
  ⟨randint 1 50 s, rfl, randint_bounds 1 50 s (by omega)⟩

/-- The set-key builder stays in the `set:1..50` pool. -/
theorem set_key_pool (s : Nat) :
    ∃ n, set_key s = "set:" ++ toString n ∧ 1 ≤ n ∧ n ≤ 50 :=
  ⟨randint 1 50 s, rfl, randint_bounds 1 50 s (by omega)⟩

/-- The hash-key builder stays in the `hash:1..50` pool. -/
theorem hash_key_pool (s : Nat) :
    ∃ n, hash_key s = "hash:" ++ toString n ∧ 1 ≤ n ∧ n ≤ 50 :=
  ⟨randint 1 50 s, rfl, randint_bounds 1 50 s (by omega)⟩

/-- Primary keys are pool keys. -/
theorem pool_ok_key (s : Nat) : pool_ok (generate_random_key s) :=
  Or.inl (generate_random_key_pool s)

/-- Counter keys are pool keys. -/
theorem pool_ok_counter (s : Nat) : pool_ok (counter_key s) :=
  Or.inr (Or.inl (counter_key_pool s))

/-- List keys are pool keys. -/
theorem pool_ok_list (s : Nat) : pool_ok (list_key s) :=
  Or.inr (Or.inr (Or.inl (list_key_pool s)))

/-- Set keys are pool keys. -/
theorem pool_ok_set (s : Nat) : pool_ok (set_key s) :=
  Or.inr (Or.inr (Or.inr (Or.inl (set_key_pool s))))

/-- Hash keys are pool keys. -/
theorem pool_ok_hash (s : Nat) : pool_ok (hash_key s) :=
  Or.inr (Or.inr (Or.inr (Or.inr (hash_key_pool s))))

/-- Looking a point update up at the updated key returns the new value. -/
theorem store_set_same (st : Store) (k : String) (l : List String) :
    store_set st k l k = l := by
  simp [store_set]

/-- A trim to `[0, 99]` leaves at most 100 elements. -/
theorem redis_ltrim_100_len (l : List String) :
    (redis_ltrim l 0 99).length ≤ 100 := by
  simp [redis_ltrim]

/-- The report check preserves the counter relations and only emits reports
satisfying them. -/
theorem cs_report_stats_inv (s : CS.Stats) (now : ℤ) (h : CS.stats_inv s) :
    CS.stats_inv (CS.report_stats s now).1 ∧
      ∀ r, (CS.report_stats s now).2 = some r → CS.good_report r := by
  unfold CS.report_stats
  split
  · refine ⟨by simp [CS.stats_inv], ?_⟩
    intro r hr
    injection hr with hr
    subst hr
    exact ⟨h.1, h.2.1, h.2.2⟩
  · exact ⟨h, by intro r hr; cases hr⟩

/-- One completed tick preserves the counter relations, and every report it
emits satisfies them. -/
theorem cs_tick_step_inv (pct : Nat) (s : CS.Stats) (draw : Nat) (o : Outcome)
    (now : ℤ) (h : CS.stats_inv s) :
    CS.stats_inv (CS.tick_step pct s draw o now).1 ∧
      ∀ r ∈ (CS.tick_step pct s draw o now).2, CS.good_report r := by
  have main : ∀ s2 : CS.Stats, CS.stats_inv s2 →
      CS.stats_inv (match CS.report_stats s2 now with
        | (s3, none) => (s3, ([] : List CS.Report))
        | (s3, some r) => (s3, [r])).1 ∧
      ∀ r ∈ (match CS.report_stats s2 now with
        | (s3, none) => (s3, ([] : List CS.Report))
        | (s3, some r) => (s3, [r])).2, CS.good_report r := by
    intro s2 h2i
    have hr := cs_report_stats_inv s2 now h2i
    rcases hq : CS.report_stats s2 now with ⟨s3, ro⟩
    rw [hq] at hr
    cases ro with
    | none => exact ⟨hr.1, by simp⟩
    | some r =>
        refine ⟨hr.1, ?_⟩
        intro r2 hr2
        simp only [List.mem_singleton] at hr2
        subst hr2
        exact hr.2 r2 rfl
  obtain ⟨h1, h2, h3⟩ := h
  unfold CS.tick_step
  by_cases hc : select_kind draw pct = OpKind.read
  · rw [if_pos hc]
    cases o with
    | ok =>
        exact main _ (by simp only [CS.stats_inv]; omega)
    | storeErr rok =>
        cases rok with
        | true => exact main _ (by simp only [CS.stats_inv]; omega)
        | false =>
            constructor
            · show CS.stats_inv { s with failed_ops := s.failed_ops + 1 }
              simp only [CS.stats_inv]
              omega
            · show ∀ r ∈ ([] : List CS.Report), CS.good_report r
              simp
  · rw [if_neg hc]
    cases o with
    | ok =>
        exact main _ (by simp only [CS.stats_inv]; omega)
    | storeErr rok =>
        cases rok with
        | true => exact main _ (by simp only [CS.stats_inv]; omega)
        | false =>
            constructor
            · show CS.stats_inv { s with failed_ops := s.failed_ops + 1 }
              simp only [CS.stats_inv]
              omega
            · show ∀ r ∈ ([] : List CS.Report), CS.good_report r
              simp

/-- Every loop event preserves the cluster/sentinel run-state invariant. -/
theorem cs_step_inv (pct : Nat) (st : CS.RunState) (e : Event)
    (h : CS.invState st) : CS.invState (CS.step pct st e) := by
  unfold CS.step
  by_cases hx : st.exitCode.isSome
  · rw [if_pos hx]; exact h
  · rw [if_neg hx]
    cases e with
    | interrupt now => exact ⟨h.1, h.2⟩
    | unexpected => exact h
    | tick draw o now =>
        have ht := cs_tick_step_inv pct st.stats draw o now h.1
        refine ⟨ht.1, ?_⟩
        intro r hr
        rcases List.mem_append.mp hr with hr | hr
        · exact h.2 r hr
        · exact ht.2 r hr

/-- The cluster/sentinel run preserves the invariant over any event list. -/
theorem cs_run_inv (pct : Nat) :
    ∀ (evs : List Event) (st : CS.RunState),
      CS.invState st → CS.invState (CS.run pct st evs) := by
  intro evs
  induction evs with
  | nil => intro st h; exact h
  | cons e es ih => intro st h; exact ih _ (cs_step_inv pct st e h)

/-- The report check preserves the exact balance and only emits balanced
reports. -/
theorem cs_report_stats_eq (s : CS.Stats) (now : ℤ) (h : CS.stats_eq s) :
    CS.stats_eq (CS.report_stats s now).1 ∧
      ∀ r, (CS.report_stats s now).2 = some r → r.success + r.failed = r.total := by
  unfold CS.report_stats
  split
  · refine ⟨by simp [CS.stats_eq], ?_⟩
    intro r hr
    injection hr with hr
    subst hr
    exact h
  · exact ⟨h, by intro r hr; cases hr⟩

/-- A loop event whose reconnect (if any) succeeds preserves the exact
balance, in the stats and in every emitted report. -/
theorem cs_step_eq (pct : Nat) (st : CS.RunState) (e : Event)
    (he : event_ok e = true) (h : CS.eqState st) :
    CS.eqState (CS.step pct st e) := by
  unfold CS.step
  by_cases hx : st.exitCode.isSome
  · rw [if_pos hx]; exact h
  · rw [if_neg hx]
    cases e with
    | interrupt now => exact ⟨h.1, h.2⟩
    | unexpected => exact h
    | tick draw o now =>
        have main : ∀ s2 : CS.Stats, CS.stats_eq s2 →
            CS.stats_eq (match CS.report_stats s2 now with
              | (s3, none) => (s3, ([] : List CS.Report))
              | (s3, some r) => (s3, [r])).1 ∧
            ∀ r ∈ (match CS.report_stats s2 now with
              | (s3, none) => (s3, ([] : List CS.Report))
              | (s3, some r) => (s3, [r])).2, r.success + r.failed = r.total := by
          intro s2 h2i
          have hr := cs_report_stats_eq s2 now h2i
          rcases hq : CS.report_stats s2 now with ⟨s3, ro⟩
          rw [hq] at hr
          cases ro with
          | none => exact ⟨hr.1, by simp⟩
          | some r =>
              refine ⟨hr.1, ?_⟩
              intro r2 hr2
              simp only [List.mem_singleton] at hr2
              subst hr2
              exact hr.2 r2 rfl
        have hts : CS.stats_eq (CS.tick_step pct st.stats draw o now).1 ∧
            ∀ r ∈ (CS.tick_step pct st.stats draw o now).2,
              r.success + r.failed = r.total := by
          have h1 := h.1
          unfold CS.stats_eq at h1
          unfold CS.tick_step
          by_cases hc : select_kind draw pct = OpKind.read
          · rw [if_pos hc]
            cases o with
            | ok => exact main _ (by simp only [CS.stats_eq]; omega)
            | storeErr rok =>
                cases rok with
                | true => exact main _ (by simp only [CS.stats_eq]; omega)
                | false => simp [event_ok] at he
          · rw [if_neg hc]
            cases o with
            | ok => exact main _ (by simp only [CS.stats_eq]; omega)
            | storeErr rok =>
                cases rok with
                | true => exact main _ (by simp only [CS.stats_eq]; omega)
                | false => simp [event_ok] at he
        refine ⟨hts.1, ?_⟩
        intro r hr
        rcases List.mem_append.mp hr with hr | hr
        · exact h.2 r hr
        · exact hts.2 r hr

/-- The cluster/sentinel run preserves the exact balance over any event list
in which every reconnect succeeds. -/
theorem cs_run_eq (pct : Nat) :
    ∀ (evs : List Event) (st : CS.RunState),
      evs.all event_ok = true → CS.eqState st → CS.eqState (CS.run pct st evs) := by
  intro evs
  induction evs with
  | nil => intro st _ h; exact h
  | cons e es ih =>
      intro st hall h
      rw [List.all_cons, Bool.and_eq_true] at hall
      exact ih _ hall.2 (cs_step_eq pct st e hall.1 h)

/-- A dragonfly report is computed from stats satisfying the invariants, so
it satisfies them too, and the reset stats satisfy them trivially. -/
theorem df_print_stats_inv (s : DF.Stats) (last now : ℤ) (h : DF.stats_inv s) :
    DF.stats_inv (DF.print_stats s last now).1 ∧
      DF.good_report (DF.print_stats s last now).2 := by
  exact ⟨by simp [DF.print_stats, DF.stats_inv], ⟨h.1, h.2⟩⟩

/-- Every loop event preserves the dragonfly run-state invariant. -/
theorem df_step_inv (pct : Nat) (st : DF.RunState) (e : Event)
    (h : DF.invState st) : DF.invState (DF.step pct st e) := by
  unfold DF.step
  by_cases hx : st.exitCode.isSome
  · rw [if_pos hx]; exact h
  · rw [if_neg hx]
    cases e with
    | unexpected => exact h
    | interrupt now =>
        have hp := df_print_stats_inv st.stats st.last_report_time now h.1
        refine ⟨hp.1, ?_⟩
        intro r hr
        rcases List.mem_append.mp hr with hr | hr
        · exact h.2 r hr
        · simp only [List.mem_singleton] at hr
          subst hr
          exact hp.2
    | tick draw o now =>
        have hrc : ∀ (s2 : DF.Stats) (lrt : ℤ) (rs : List DF.Report),
            DF.stats_inv s2 → (∀ r ∈ rs, DF.good_report r) →
            DF.stats_inv (DF.report_check s2 lrt now rs).1 ∧
              ∀ r ∈ (DF.report_check s2 lrt now rs).2.2, DF.good_report r := by
          intro s2 lrt rs h2 hrs
          unfold DF.report_check
          split
          · refine ⟨(df_print_stats_inv s2 lrt now h2).1, ?_⟩
            intro r hr
            rcases List.mem_append.mp hr with hr | hr
            · exact hrs r hr
            · simp only [List.mem_singleton] at hr
              subst hr
              exact (df_print_stats_inv s2 lrt now h2).2
          · exact ⟨h2, hrs⟩
        have hinv2 : DF.stats_inv
            (let s1 := if draw ≤ pct then DF.read_tick st.stats o
                       else DF.write_tick st.stats o
             { s1 with total_operations := s1.total_operations + 1 }) := by
          obtain ⟨h1, h2⟩ := h.1
          by_cases hc : draw ≤ pct
          · simp only [if_pos hc]
            cases o with
            | ok => simp only [DF.read_tick, DF.stats_inv]; omega
            | storeErr rok => simp only [DF.read_tick, DF.stats_inv]; omega
          · simp only [if_neg hc]
            cases o with
            | ok => simp only [DF.write_tick, DF.stats_inv]; omega
            | storeErr rok => simp only [DF.write_tick, DF.stats_inv]; omega
        refine ⟨(hrc _ st.last_report_time st.reports hinv2 h.2).1,
                (hrc _ st.last_report_time st.reports hinv2 h.2).2⟩

/-- The dragonfly run preserves the invariant over any event list. -/
theorem df_run_inv (pct : Nat) :
    ∀ (evs : List Event) (st : DF.RunState),
      DF.invState st → DF.invState (DF.run pct st evs) := by
  intro evs
  induction evs with
  | nil => intro st h; exact h
  | cons e es ih => intro st h; exact ih _ (df_step_inv pct st e h)

/-- If every remaining attempt fails, the retry loop exhausts them and
re-raises. -/
theorem connectLoop_all_fail (ok : Nat → Bool) (delay : Nat) :
    ∀ l : List Nat, (∀ a ∈ l, ok a = false) → connectLoop ok delay l = none := by
  intro l
  induction l with
  | nil => intro _; rfl
  | cons a rest ih =>
      intro h
      unfold connectLoop
      rw [h a (List.mem_cons_self a rest)]
      exact ih fun x hx => h x (List.mem_cons_of_mem a hx)

/-- The retry loop returns at the first successful attempt, having slept
`delay` seconds after each of the preceding failures. -/
theorem connectLoop_first_success (ok : Nat → Bool) (delay : Nat) (a : Nat)
    (ha : ok a = true) :
    ∀ l1 l2 : List Nat, (∀ x ∈ l1, ok x = false) →
      connectLoop ok delay (l1 ++ a :: l2) = some (a + 1, delay * a) := by
  intro l1
  induction l1 with
  | nil =>
      intro l2 _
      rw [List.nil_append]
      unfold connectLoop
      simp [ha]
  | cons x rest ih =>
      intro l2 h
      rw [List.cons_append]
      unfold connectLoop
      rw [h x (List.mem_cons_self x rest)]
      simpa using ih l2 fun y hy => h y (List.mem_cons_of_mem x hy)

/-- Once the cluster/sentinel loop has broken out, later events are ignored. -/
theorem cs_run_stopped (pct : Nat) :
    ∀ (evs : List Event) (st : CS.RunState),
      st.exitCode.isSome = true → CS.run pct st evs = st := by
  intro evs
  induction evs with
  | nil => intro st _; rfl
  | cons e es ih =>
      intro st h
      show CS.run pct (CS.step pct st e) es = st
      have hstep : CS.step pct st e = st := by
        unfold CS.step
        rw [if_pos h]
      rw [hstep]
      exact ih st h

/-- Once the dragonfly loop has broken out, later events are ignored. -/
theorem df_run_stopped (pct : Nat) :
    ∀ (evs : List Event) (st : DF.RunState),
      st.exitCode.isSome = true → DF.run pct st evs = st := by
  intro evs
  induction evs with
  | nil => intro st _; rfl
  | cons e es ih =>
      intro st h
      show DF.run pct (DF.step pct st e) es = st
      have hstep : DF.step pct st e = st := by
        unfold DF.step
        rw [if_pos h]
      rw [hstep]
      exact ih st h

/-!
Claim theorems.
-/

/-- Claim C1, counterexample.  The claim asserts `total == reads + writes`
at every report boundary in every variant.  In the cluster/sentinel code
`reads`/`writes` are only incremented when the operation succeeds, so one
failed read inside a window yields a report with `total = 1` but
`reads + writes = 0`: the claimed equality evaluates to `false` at that
report boundary. -/
theorem c1_counterexample :
    ((CS.run 70 (CS.initState 0)
        [Event.tick 1 (Outcome.storeErr true) 20]).reports.map
      (fun r => decide (r.total = r.reads + r.writes))) = [false] := by
  decide

/-- Claim C1, amended.  In the dragonfly variant both window invariants
(`total == reads + writes` and `success + failed == total`) hold in the live
stats and in every emitted report.  In the cluster and sentinel variants
`reads`/`writes` count only successful ticks, so what holds at every report
is `reads + writes == success ≤ total ≤ success + failed`; the exact balance
`success + failed == total` additionally holds whenever no reconnect inside
the window exhausted its retries (a reconnect failure re-raises past the
`total_ops` increment). -/
theorem c1_amended :
    (∀ (pct : Nat) (t0 : ℤ) (evs : List Event),
        DF.invState (DF.run pct (DF.initState t0) evs)) ∧
    (∀ (pct : Nat) (t0 : ℤ) (evs : List Event),
        ∀ r ∈ (CS.run pct (CS.initState t0) evs).reports, CS.good_report r) ∧
    (∀ (pct : Nat) (t0 : ℤ) (evs : List Event), evs.all event_ok = true →
        ∀ r ∈ (CS.run pct (CS.initState t0) evs).reports,
          r.success + r.failed = r.total) := by
  refine ⟨?_, ?_, ?_⟩
  · intro pct t0 evs
    have h0 : DF.invState (DF.initState t0) := by
      refine ⟨⟨rfl, rfl⟩, ?_⟩
      intro r hr
      simp [DF.initState] at hr
    exact df_run_inv pct evs (DF.initState t0) h0
  · intro pct t0 evs
    have h0 : CS.invState (CS.initState t0) := by
      refine ⟨⟨rfl, Nat.le_refl 0, Nat.le_refl 0⟩, ?_⟩
      intro r hr
      simp [CS.initState] at hr
    exact (cs_run_inv pct evs (CS.initState t0) h0).2
  · intro pct t0 evs hall
    have h0 : CS.eqState (CS.initState t0) := by
      refine ⟨rfl, ?_⟩
      intro r hr
      simp [CS.initState] at hr
    exact (cs_run_eq pct evs (CS.initState t0) hall h0).2

/-- Claim C1, witness: a concrete dragonfly run and a concrete
cluster/sentinel run, each crossing one report boundary, with the respective
invariants evaluated on the emitted report. -/
theorem c1_amended_witness :
    DF.good_report
      ((DF.run 70 (DF.initState 0) [Event.tick 1 Outcome.ok 20]).reports.getD 0 default) ∧
    CS.good_report
      ((CS.run 70 (CS.initState 0) [Event.tick 1 Outcome.ok 20]).reports.getD 0 default) ∧
    ((CS.run 70 (CS.initState 0) [Event.tick 1 Outcome.ok 20]).reports.getD 0 default).success +
        ((CS.run 70 (CS.initState 0) [Event.tick 1 Outcome.ok 20]).reports.getD 0 default).failed =
      ((CS.run 70 (CS.initState 0) [Event.tick 1 Outcome.ok 20]).reports.getD 0 default).total := by
  have hm1 : (DF.run 70 (DF.initState 0) [Event.tick 1 Outcome.ok 20]).reports.getD 0 default ∈
      (DF.run 70 (DF.initState 0) [Event.tick 1 Outcome.ok 20]).reports := by
    rw [List.getD_eq_getElem _ _ (by decide)]
    exact List.getElem_mem _
  have hm2 : (CS.run 70 (CS.initState 0) [Event.tick 1 Outcome.ok 20]).reports.getD 0 default ∈
      (CS.run 70 (CS.initState 0) [Event.tick 1 Outcome.ok 20]).reports := by
    rw [List.getD_eq_getElem _ _ (by decide)]
    exact List.getElem_mem _
  exact ⟨(c1_amended.1 70 0 [Event.tick 1 Outcome.ok 20]).2 _ hm1,
         c1_amended.2.1 70 0 [Event.tick 1 Outcome.ok 20] _ hm2,
         c1_amended.2.2 70 0 [Event.tick 1 Outcome.ok 20] (by decide) _ hm2⟩

/-- Claim C2, counterexample.  The claim asserts that a failed dispatch
increments the failed counter AND the type-specific error counter in every
variant.  In the cluster/sentinel variants the stats dictionary has no
read/write error counters at all: on a failed read the handler changes
`failed_ops` alone (every other counter is unchanged at 0 here), while it
does invoke `reconnect()` and returns `False`.  Conversely the dragonfly
handler (second conjunct) bumps `failed_operations` and `read_errors` but
the whole effect of its `except RedisError` branch is this counter update —
it invokes no reconnect. -/
theorem c2_counterexample :
    CS.perform_read ⟨0, 0, 0, 0, 0, 0⟩ (Outcome.storeErr true) =
      (⟨0, 0, 1, 0, 0, 0⟩, [CS.SupAction.reconnectCall], some false) ∧
    DF.read_tick ⟨0, 0, 0, 0, 0, 0, 0⟩ (Outcome.storeErr true) =
      ⟨0, 0, 1, 1, 0, 1, 0⟩ :=
  ⟨rfl, rfl⟩

/-- Claim C2, amended.  Cluster/sentinel: a connectivity/protocol-classified
store error increments only `failed_ops` (these variants keep no
type-specific error counters), invokes `reconnect()` — which sleeps a fixed
2 seconds and re-runs the full 10-attempt / 5-second `connect()` sequence —
and, when the reconnect succeeds, returns `False` without retrying the
failed operation.  Dragonfly: the error increments `failed_operations` and
the type-specific error counter (`read_errors`/`write_errors`) and the loop
continues; its handler performs no reconnect, so the tick's whole effect is
the counter update. -/
theorem c2_amended :
    (∀ (s : CS.Stats) (b : Bool),
        CS.perform_read s (Outcome.storeErr b) =
          ({ s with failed_ops := s.failed_ops + 1 },
           [CS.SupAction.reconnectCall], if b then some false else none)) ∧
    (∀ (s : CS.Stats) (b : Bool),
        CS.perform_write s (Outcome.storeErr b) =
          ({ s with failed_ops := s.failed_ops + 1 },
           [CS.SupAction.reconnectCall], if b then some false else none)) ∧
    (∀ ok : Nat → Bool,
        CS.reconnect ok = (2, connectLoop ok 5 (List.range 10))) ∧
    (∀ (s : DF.Stats) (b : Bool),
        DF.read_tick s (Outcome.storeErr b) =
          { s with reads := s.reads + 1,
                   failed_operations := s.failed_operations + 1,
                   read_errors := s.read_errors + 1 }) ∧
    (∀ (s : DF.Stats) (b : Bool),
        DF.write_tick s (Outcome.storeErr b) =
          { s with writes := s.writes + 1,
                   failed_operations := s.failed_operations + 1,
                   write_errors := s.write_errors + 1 }) :=
  ⟨fun _ _ => rfl, fun _ _ => rfl, fun _ => rfl, fun _ _ => rfl, fun _ _ => rfl⟩

/-- Claim C3.  In the cluster and dragonfly variants every list-push-trim
write pushes and then trims the SAME list key, so the pushed list ends with
at most 100 elements (first two conjuncts, for any prior store state).  In
the sentinel variant the trim key is drawn independently of the push key:
with the push draw landing on `list:1` (seed 0) and the trim draw on
`list:2` (seed 1), a store whose `list:1` already holds 100 elements ends
the "push then trim" write with 101 elements in the pushed list —
contradicting the claimed `≤ 100` bound and the source's own
"keep list size manageable" comment. -/
theorem c3_theorem :
    (∀ (st : Store) (ks cs2 ls ss hs : Nat) (v f : String),
        ((apply_cmds st (cluster_write_cmds "lpush" ks cs2 ls ss hs v f))
          (list_key ls)).length ≤ 100) ∧
    (∀ (st : Store) (ks cs2 ls ss hs : Nat) (v f : String),
        ((apply_cmds st (dragonfly_write_cmds "lpush" ks cs2 ls ss hs v f))
          (list_key ls)).length ≤ 100) ∧
    ((apply_cmds sentinel_store0
        (sentinel_write_cmds "lpush" 0 0 0 1 0 0 "v" "f")) "list:1").length = 101 := by
  refine ⟨?_, ?_, ?_⟩
  · intro st ks cs2 ls ss hs v f
    have hcmds : cluster_write_cmds "lpush" ks cs2 ls ss hs v f =
        [StoreCmd.lpush (list_key ls) v, StoreCmd.ltrim (list_key ls) 0 99] := rfl
    rw [hcmds]
    simp only [apply_cmds, List.foldl, apply_cmd]
    rw [store_set_same]
    exact redis_ltrim_100_len _
  · intro st ks cs2 ls ss hs v f
    have hcmds : dragonfly_write_cmds "lpush" ks cs2 ls ss hs v f =
        [StoreCmd.lpush (list_key ls) v, StoreCmd.ltrim (list_key ls) 0 99] := rfl
    rw [hcmds]
    simp only [apply_cmds, List.foldl, apply_cmd]
    rw [store_set_same]
    exact redis_ltrim_100_len _
  · decide

/-- Claim C4, counterexample.  The claim asserts a fixed maximum of 10
attempts with a 5-second delay in every variant.  The dragonfly startup wait
loop performs up to 30 attempts with a 2-second delay: with the first 10
attempts failing it does not raise, but succeeds on attempt 11 having slept
2 seconds after each of the 10 failures (11 > 10 attempts, 20 ≠ 50 seconds
of delay). -/
theorem c4_counterexample :
    DF.connect_wait (fun i => decide (i = 10)) = some (11, 20) := by
  decide

/-- Claim C4, amended.  The cluster and sentinel `connect()` use at most 10
attempts separated by a fixed 5-second delay and raise a fatal error after
exhausting them; the dragonfly startup wait loop uses at most 30 attempts
separated by a fixed 2-second delay and raises after exhausting those.  In
every variant, when the first 3 attempts fail and attempt 4 succeeds, the
ready state is reached after exactly 4 attempts. -/
theorem c4_amended :
    (∀ ok : Nat → Bool, (∀ i, i < 10 → ok i = false) → CS.connect ok = none) ∧
    (∀ ok : Nat → Bool, ok 0 = false → ok 1 = false → ok 2 = false →
        ok 3 = true → CS.connect ok = some (4, 15)) ∧
    (∀ ok : Nat → Bool, (∀ i, i < 30 → ok i = false) → DF.connect_wait ok = none) ∧
    (∀ ok : Nat → Bool, ok 0 = false → ok 1 = false → ok 2 = false →
        ok 3 = true → DF.connect_wait ok = some (4, 6)) := by
  refine ⟨?_, ?_, ?_, ?_⟩
  · intro ok h
    exact connectLoop_all_fail ok 5 _ fun a ha => h a (List.mem_range.mp ha)
  · intro ok h0 h1 h2 h3
    have hsplit : List.range 10 = [0, 1, 2] ++ 3 :: [4, 5, 6, 7, 8, 9] := rfl
    have := connectLoop_first_success ok 5 3 h3 [0, 1, 2] [4, 5, 6, 7, 8, 9]
      (by intro x hx; simp at hx; rcases hx with rfl | rfl | rfl <;> assumption)
    rw [CS.connect, hsplit]
    simpa using this
  · intro ok h
    exact connectLoop_all_fail ok 2 _ fun a ha => h a (List.mem_range.mp ha)
  · intro ok h0 h1 h2 h3
    have hsplit : List.range 30 =
        [0, 1, 2] ++ 3 :: [4, 5, 6, 7, 8, 9, 10, 11, 12, 13, 14, 15, 16, 17,
          18, 19, 20, 21, 22, 23, 24, 25, 26, 27, 28, 29] := rfl
    have := connectLoop_first_success ok 2 3 h3 [0, 1, 2] [4, 5, 6, 7, 8, 9,
      10, 11, 12, 13, 14, 15, 16, 17, 18, 19, 20, 21, 22, 23, 24, 25, 26, 27,
      28, 29] (by intro x hx; simp at hx; rcases hx with rfl | rfl | rfl <;> assumption)
    rw [DF.connect_wait, hsplit]
    simpa using this

/-- Claim C4, witness: the amended statement applied to the always-failing
attempt predicate and to the fails-thrice-then-succeeds predicate. -/
theorem c4_amended_witness :
    CS.connect (fun _ => false) = none ∧
    CS.connect (fun i => decide (i = 3)) = some (4, 15) ∧
    DF.connect_wait (fun _ => false) = none ∧
    DF.connect_wait (fun i => decide (i = 3)) = some (4, 6) :=
  ⟨c4_amended.1 _ (fun _ _ => rfl),
   c4_amended.2.1 _ rfl rfl rfl rfl,
   c4_amended.2.2.1 _ (fun _ _ => rfl),
   c4_amended.2.2.2 _ rfl rfl rfl rfl⟩

/-- Claim C5, counterexample.  The claim asserts that every variant falls
back to a fixed default interval (never a division error) for a non-positive
rate.  The dragonfly variant computes `1.0 / OPERATIONS_PER_SECOND` with no
guard: at rate 0 it raises `ZeroDivisionError` (modelled `none`), and at the
negative rate -5 it produces the negative interval -1/5 instead of any
fallback. -/
theorem c5_counterexample :
    DF.sleep_time 0 = none ∧
    DF.sleep_time (-5) = some (1 / ((-5 : Int) : ℚ)) ∧
    (1 / ((-5 : Int) : ℚ)) < 0 := by
  refine ⟨rfl, rfl, ?_⟩
  norm_num

/-- Claim C5, amended.  The cluster and sentinel variants compute the
per-tick sleep as `1 / operations_per_second` for a positive configured rate
and fall back to the fixed default 0.01 (= 1/100) for a zero or negative
rate, so their interval is always positive and no division error can occur.
The dragonfly variant computes `1 / operations_per_second` unconditionally:
it raises a division error at rate 0 and has no fallback for negative
rates. -/
theorem c5_amended :
    (∀ ops : Int, 0 < ops → CS.sleep_time ops = 1 / (ops : ℚ)) ∧
    (∀ ops : Int, ops ≤ 0 → CS.sleep_time ops = 1 / 100) ∧
    (∀ ops : Int, 0 < CS.sleep_time ops) ∧
    (∀ ops : Int, ops ≠ 0 → DF.sleep_time ops = some (1 / (ops : ℚ))) ∧
    DF.sleep_time 0 = none := by
  refine ⟨?_, ?_, ?_, ?_, rfl⟩
  · intro ops h
    simp [CS.sleep_time, h]
  · intro ops h
    simp [CS.sleep_time, not_lt.mpr h]
  · intro ops
    unfold CS.sleep_time
    split
    · next h =>
        have : (0 : ℚ) < (ops : ℚ) := by exact_mod_cast h
        positivity
    · norm_num
  · intro ops h
    simp [DF.sleep_time, h]

/-- Claim C5, witness: the amended statement applied at the rates 50, 0, -3
and 4. -/
theorem c5_amended_witness :
    CS.sleep_time 50 = 1 / ((50 : Int) : ℚ) ∧
    CS.sleep_time 0 = 1 / 100 ∧
    0 < CS.sleep_time (-3) ∧
    DF.sleep_time 4 = some (1 / ((4 : Int) : ℚ)) :=
  ⟨c5_amended.1 50 (by decide), c5_amended.2.1 0 (by decide),
   c5_amended.2.2.1 (-3), c5_amended.2.2.2.1 4 (by decide)⟩

/-- Claim C6, counterexample.  The claim asserts that every variant performs
a final statistics flush before exiting with status 0.  In the
cluster/sentinel run below, one successful read tick leaves pending counters
(`total_ops = 1`), and the `KeyboardInterrupt` handler (`logger.info` then
`break`) exits with status 0 having emitted no report at all: the pending
window is discarded without a flush. -/
theorem c6_counterexample :
    CS.run 70 (CS.initState 0) [Event.tick 1 Outcome.ok 0, Event.interrupt 5] =
      ⟨⟨1, 1, 0, 1, 0, 0⟩, [], some 0⟩ := by
  decide

/-- Claim C6, amended.  In every variant an external interrupt stops the
loop after the in-flight tick completes and the process exits with status 0;
only the dragonfly variant performs a final statistics flush
(`print_stats()` emits one last report from the pending counters and zeroes
them), while the cluster and sentinel variants break out of the loop leaving
their pending counters unreported. -/
theorem c6_amended :
    (∀ (pct : Nat) (s : CS.Stats) (rs : List CS.Report) (now : ℤ)
        (rest : List Event),
        CS.run pct ⟨s, rs, none⟩ (Event.interrupt now :: rest) =
          ⟨s, rs, some 0⟩) ∧
    (∀ (pct : Nat) (s : DF.Stats) (lrt : ℤ) (rs : List DF.Report) (now : ℤ)
        (rest : List Event),
        DF.run pct ⟨s, lrt, rs, none⟩ (Event.interrupt now :: rest) =
          ⟨⟨0, 0, 0, 0, 0, 0, 0⟩, lrt,
           rs ++ [(DF.print_stats s lrt now).2], some 0⟩) := by
  constructor
  · intro pct s rs now rest
    have hstep : CS.step pct ⟨s, rs, none⟩ (Event.interrupt now) =
        ⟨s, rs, some 0⟩ := rfl
    show CS.run pct (CS.step pct ⟨s, rs, none⟩ (Event.interrupt now)) rest = _
    rw [hstep]
    exact cs_run_stopped pct rest _ rfl
  · intro pct s lrt rs now rest
    have hstep : DF.step pct ⟨s, lrt, rs, none⟩ (Event.interrupt now) =
        ⟨⟨0, 0, 0, 0, 0, 0, 0⟩, lrt, rs ++ [(DF.print_stats s lrt now).2],
         some 0⟩ := rfl
    show DF.run pct (DF.step pct ⟨s, lrt, rs, none⟩ (Event.interrupt now)) rest = _
    rw [hstep]
    exact df_run_stopped pct rest _ rfl

/-- Claim C7, confirmed.  Every variant draws a uniform integer in `[1,100]`
(first conjunct: the modelled draw's range is exactly that interval),
performs a read if and only if the draw is at most the configured read
percentage (second conjunct), and picks the operation subtype by a uniform
choice from the 5-element lists `[get, exists, lrange, smembers, hgetall]`
for reads and `[set, incr, lpush, sadd, hset]` for writes: every choice
lands in the list, and the 5 equiprobable indices enumerate the list exactly
(so the subtype is uniform on the 5-element set). -/
theorem c7_confirmed :
    (∀ s : Nat, 1 ≤ randint 1 100 s ∧ randint 1 100 s ≤ 100) ∧
    (∀ draw pct : Nat, select_kind draw pct = OpKind.read ↔ draw ≤ pct) ∧
    read_ops = ["get", "exists", "lrange", "smembers", "hgetall"] ∧
    write_ops = ["set", "incr", "lpush", "sadd", "hset"] ∧
    (∀ i : Nat, random_choice read_ops i ∈ read_ops) ∧
    (∀ i : Nat, random_choice write_ops i ∈ write_ops) ∧
    (List.range 5).map (random_choice read_ops) = read_ops ∧
    (List.range 5).map (random_choice write_ops) = write_ops := by
  refine ⟨?_, ?_, rfl, rfl, ?_, ?_, by decide, by decide⟩
  · intro s
    exact randint_bounds 1 100 s (by omega)
  · intro draw pct
    by_cases h : draw ≤ pct <;> simp [select_kind, h]
  · intro i
    have h5 : i % 5 = 0 ∨ i % 5 = 1 ∨ i % 5 = 2 ∨ i % 5 = 3 ∨ i % 5 = 4 := by
      omega
    rcases h5 with h | h | h | h | h <;> simp [random_choice, read_ops, h]
  · intro i
    have h5 : i % 5 = 0 ∨ i % 5 = 1 ∨ i % 5 = 2 ∨ i % 5 = 3 ∨ i % 5 = 4 := by
      omega
    rcases h5 with h | h | h | h | h <;> simp [random_choice, write_ops, h]

/-- Claim C8, confirmed.  Every generated key's numeric suffix lies within
its pool's closed range: the five key builders (first five conjuncts) land
in `key:1..1000`, `counter:1..100`, `list:1..50`, `set:1..50` and
`hash:1..50`; every read subtype's key is a pool key (sixth conjunct); and
every key addressed by any write subtype's command sequence is a pool key,
in each of the three variants (last three conjuncts). -/
theorem c8_confirmed :
    (∀ s : Nat, ∃ n, generate_random_key s = "key:" ++ toString n ∧
        1 ≤ n ∧ n ≤ 1000) ∧
    (∀ s : Nat, ∃ n, counter_key s = "counter:" ++ toString n ∧
        1 ≤ n ∧ n ≤ 100) ∧
    (∀ s : Nat, ∃ n, list_key s = "list:" ++ toString n ∧ 1 ≤ n ∧ n ≤ 50) ∧
    (∀ s : Nat, ∃ n, set_key s = "set:" ++ toString n ∧ 1 ≤ n ∧ n ≤ 50) ∧
    (∀ s : Nat, ∃ n, hash_key s = "hash:" ++ toString n ∧ 1 ≤ n ∧ n ≤ 50) ∧
    (∀ i ks ls ss hs : Nat,
        pool_ok (read_key_for (random_choice read_ops i) ks ls ss hs)) ∧
    (∀ (op : String) (ks cs2 ls ss hs : Nat) (v f : String),
        keys_in_pools ((cluster_write_cmds op ks cs2 ls ss hs v f).map cmd_key)) ∧
    (∀ (op : String) (ks cs2 ls1 ls2 ss hs : Nat) (v f : String),
        keys_in_pools ((sentinel_write_cmds op ks cs2 ls1 ls2 ss hs v f).map cmd_key)) ∧
    (∀ (op : String) (ks cs2 ls ss hs : Nat) (v f : String),
        keys_in_pools ((dragonfly_write_cmds op ks cs2 ls ss hs v f).map cmd_key)) := by
  refine ⟨generate_random_key_pool, counter_key_pool, list_key_pool,
          set_key_pool, hash_key_pool, ?_, ?_, ?_, ?_⟩
  · intro i ks ls ss hs
    have h5 : i % 5 = 0 ∨ i % 5 = 1 ∨ i % 5 = 2 ∨ i % 5 = 3 ∨ i % 5 = 4 := by
      omega
    rcases h5 with h | h | h | h | h
    · have hop : random_choice read_ops i = "get" := by
        simp [random_choice, read_ops, h]
      rw [hop]
      exact pool_ok_key ks
    · have hop : random_choice read_ops i = "exists" := by
        simp [random_choice, read_ops, h]
      rw [hop]
      exact pool_ok_key ks
    · have hop : random_choice read_ops i = "lrange" := by
        simp [random_choice, read_ops, h]
      rw [hop]
      exact pool_ok_list ls
    · have hop : random_choice read_ops i = "smembers" := by
        simp [random_choice, read_ops, h]
      rw [hop]
      exact pool_ok_set ss
    · have hop : random_choice read_ops i = "hgetall" := by
        simp [random_choice, read_ops, h]
      rw [hop]
      exact pool_ok_hash hs
  · intro op ks cs2 ls ss hs v f
    unfold cluster_write_cmds
    by_cases h1 : op = "set"
    · rw [if_pos h1]; exact ⟨pool_ok_key ks, trivial⟩
    rw [if_neg h1]
    by_cases h2 : op = "incr"
    · rw [if_pos h2]; exact ⟨pool_ok_counter cs2, trivial⟩
    rw [if_neg h2]
    by_cases h3 : op = "lpush"
    · rw [if_pos h3]; exact ⟨pool_ok_list ls, pool_ok_list ls, trivial⟩
    rw [if_neg h3]
    by_cases h4 : op = "sadd"
    · rw [if_pos h4]; exact ⟨pool_ok_set ss, trivial⟩
    rw [if_neg h4]
    by_cases h6 : op = "hset"
    · rw [if_pos h6]; exact ⟨pool_ok_hash hs, trivial⟩
    rw [if_neg h6]
    trivial
  · intro op ks cs2 ls1 ls2 ss hs v f
    unfold sentinel_write_cmds
    by_cases h1 : op = "set"
    · rw [if_pos h1]; exact ⟨pool_ok_key ks, trivial⟩
    rw [if_neg h1]
    by_cases h2 : op = "incr"
    · rw [if_pos h2]; exact ⟨pool_ok_counter cs2, trivial⟩
    rw [if_neg h2]
    by_cases h3 : op = "lpush"
    · rw [if_pos h3]; exact ⟨pool_ok_list ls1, pool_ok_list ls2, trivial⟩
    rw [if_neg h3]
    by_cases h4 : op = "sadd"
    · rw [if_pos h4]; exact ⟨pool_ok_set ss, trivial⟩
    rw [if_neg h4]
    by_cases h6 : op = "hset"
    · rw [if_pos h6]; exact ⟨pool_ok_hash hs, trivial⟩
    rw [if_neg h6]
    trivial
  · intro op ks cs2 ls ss hs v f
    unfold dragonfly_write_cmds
    by_cases h1 : op = "set"
    · rw [if_pos h1]; exact ⟨pool_ok_key ks, trivial⟩
    rw [if_neg h1]
    by_cases h2 : op = "incr"
    · rw [if_pos h2]; exact ⟨pool_ok_counter cs2, trivial⟩
    rw [if_neg h2]
    by_cases h3 : op = "lpush"
    · rw [if_pos h3]; exact ⟨pool_ok_list ls, pool_ok_list ls, trivial⟩
    rw [if_neg h3]
    by_cases h4 : op = "sadd"
    · rw [if_pos h4]; exact ⟨pool_ok_set ss, trivial⟩
    rw [if_neg h4]
    by_cases h6 : op = "hset"
    · rw [if_pos h6]; exact ⟨pool_ok_hash hs, trivial⟩
    rw [if_neg h6]
    trivial

/-- Claim C9, confirmed.  In every variant the `set` write subtype stores
its value with an expiry of exactly 300 seconds: the command sequence of the
`set` branch is precisely one set-with-ttl command carrying TTL 300
(cluster `set(key, value, ex=300)`, sentinel `set(key, value, ex=300)`,
dragonfly `setex(key, 300, value)`). -/
theorem c9_confirmed :
    (∀ (ks cs2 ls ss hs : Nat) (v f : String),
        cluster_write_cmds "set" ks cs2 ls ss hs v f =
          [StoreCmd.setex (generate_random_key ks) 300 v]) ∧
    (∀ (ks cs2 ls1 ls2 ss hs : Nat) (v f : String),
        sentinel_write_cmds "set" ks cs2 ls1 ls2 ss hs v f =
          [StoreCmd.setex (generate_random_key ks) 300 v]) ∧
    (∀ (ks cs2 ls ss hs : Nat) (v f : String),
        dragonfly_write_cmds "set" ks cs2 ls ss hs v f =
          [StoreCmd.setex (generate_random_key ks) 300 v]) :=
  ⟨fun _ _ _ _ _ _ _ => rfl, fun _ _ _ _ _ _ _ _ => rfl,
   fun _ _ _ _ _ _ _ => rfl⟩

/-- Claim C10, confirmed.  When the wall-clock time elapsed since the window
start is strictly less than 10 seconds, the report check of the
cluster/sentinel variants (`report_stats`) and of the dragonfly variant (the
main-loop interval check) returns every statistics counter, the window-start
timestamp and the emitted-report list unchanged: no report and no reset. -/
theorem c10_confirmed :
    (∀ (s : CS.Stats) (now : ℤ), now - s.last_report < 10 →
        CS.report_stats s now = (s, none)) ∧
    (∀ (s : DF.Stats) (lrt now : ℤ) (rs : List DF.Report), now - lrt < 10 →
        DF.report_check s lrt now rs = (s, lrt, rs)) := by
  constructor
  · intro s now h
    unfold CS.report_stats
    rw [if_neg (not_le.mpr h)]
  · intro s lrt now rs h
    unfold DF.report_check
    rw [if_neg (not_le.mpr h)]

/-- Claim C10, witness: a report check 5 seconds into a window with pending
counters, in both models. -/
theorem c10_witness :
    CS.report_stats ⟨3, 2, 1, 1, 1, 0⟩ 5 = (⟨3, 2, 1, 1, 1, 0⟩, none) ∧
    DF.report_check ⟨3, 2, 1, 1, 1, 1, 0⟩ 0 5 [] =
      (⟨3, 2, 1, 1, 1, 1, 0⟩, 0, []) :=
  ⟨c10_confirmed.1 _ 5 (by decide), c10_confirmed.2 _ 0 5 [] (by decide)⟩

end HaRedis
